import Mathlib

/-!
Shallow embedding of the rcc environment-cache code (conda/workflows.go,
pathlib/functions.go, pathlib/lock_unix.go, common sources) together with
the hash primitives it relies on.  Machine integers are modelled as `Nat`
with explicit reduction modulo `2 ^ 64` / `2 ^ 32`; byte strings are
`List Nat` with every entry below 256.
-/

/-! ## 64-bit and 32-bit word helpers -/

def w64 (n : Nat) : Nat := n % 2 ^ 64

def add64 (a b : Nat) : Nat := (a + b) % 2 ^ 64

def rotl64 (x b : Nat) : Nat := ((x <<< b) % 2 ^ 64) ||| (x >>> (64 - b))

def w32 (n : Nat) : Nat := n % 2 ^ 32

def add32 (a b : Nat) : Nat := (a + b) % 2 ^ 32

def rotr32 (x b : Nat) : Nat := (x >>> b) ||| ((x <<< (32 - b)) % 2 ^ 32)

/-! ## Hexadecimal rendering (Go fmt verbs `%02x`, `%016x`, `%08X`) -/

def hexDigitChar (n : Nat) : Char :=
  if n < 10 then Char.ofNat (48 + n) else Char.ofNat (87 + n)

def hexUpperChar (n : Nat) : Char :=
  if n < 10 then Char.ofNat (48 + n) else Char.ofNat (55 + n)

def hexDigitsAux (dig : Nat → Char) : Nat → Nat → List Char
  | 0, _ => []
  | _ + 1, 0 => []
  | fuel + 1, n => hexDigitsAux dig fuel (n / 16) ++ [dig (n % 16)]

def leftPad (w : Nat) (c : Char) (s : List Char) : List Char :=
  List.replicate (w - s.length) c ++ s

/-- Go `fmt.Sprintf("%02x", v)` for an unsigned integer: minimal lowercase
hex digits, zero-padded on the left to width at least 2. -/
def hexMin2 (n : Nat) : String := ⟨leftPad 2 '0' (hexDigitsAux hexDigitChar 16 n)⟩

/-- Go `fmt.Sprintf("%016x", v)`: lowercase hex, zero-padded to width 16. -/
def hexPad16 (n : Nat) : String := ⟨leftPad 16 '0' (hexDigitsAux hexDigitChar 16 n)⟩

/-- Go `fmt.Sprintf("%08X", v)`: uppercase hex, zero-padded to width 8. -/
def hexUpper8 (n : Nat) : String := ⟨leftPad 8 '0' (hexDigitsAux hexUpperChar 16 n)⟩

def hexBytes (raw : List Nat) : List Char :=
  raw.foldr (fun b acc => hexDigitChar (b % 256 / 16) :: hexDigitChar (b % 16) :: acc) []

/-- Go `fmt.Sprintf("%02x", raw)` over a byte slice: each byte rendered as
two lowercase hex digits (conda/workflows.go `Hexdigest`). -/
def Hexdigest (raw : List Nat) : String := ⟨hexBytes raw⟩

/-- Go byte slicing `s[:n]` on ASCII data: the first `n` characters. -/
def goTake (s : String) (n : Nat) : String := ⟨s.data.take n⟩

/-! ## SipHash-2-4

Modelled from the spec: the sources call `common.Siphash(9007799254740993,
2147487647, bytes)` but the file defining `Siphash` is not among the given
sources; the spec fixes the algorithm ("SipHash-2-4 with compile-time-fixed
128-bit key constants over UTF-8 bytes"). -/

structure SipState where
  v0 : Nat
  v1 : Nat
  v2 : Nat
  v3 : Nat

def sipRound (s : SipState) : SipState :=
  let v0 := add64 s.v0 s.v1
  let v1 := rotl64 s.v1 13
  let v1 := Nat.xor v1 v0
  let v0 := rotl64 v0 32
  let v2 := add64 s.v2 s.v3
  let v3 := rotl64 s.v3 16
  let v3 := Nat.xor v3 v2
  let v0 := add64 v0 v3
  let v3 := rotl64 v3 21
  let v3 := Nat.xor v3 v0
  let v2 := add64 v2 v1
  let v1 := rotl64 v1 17
  let v1 := Nat.xor v1 v2
  let v2 := rotl64 v2 32
  ⟨v0, v1, v2, v3⟩

/-- Little-endian word value of a byte list (at most 8 bytes are ever passed). -/
def leWord : List Nat → Nat
  | [] => 0
  | b :: rest => b % 256 + 256 * leWord rest

/-- Message words: full 8-byte little-endian blocks, then the final block
made of the remaining bytes with the message length (mod 256) in the top
byte.  Fuel-driven so that it evaluates by kernel reduction. -/
def sipBlocksAux (msgLen : Nat) : Nat → List Nat → List Nat
  | 0, _ => []
  | fuel + 1, bytes =>
    if 8 ≤ bytes.length then
      leWord (bytes.take 8) :: sipBlocksAux msgLen fuel (bytes.drop 8)
    else
      [leWord bytes + msgLen % 256 * 2 ^ 56]

def sipCompress (s : SipState) (m : Nat) : SipState :=
  let s := { s with v3 := Nat.xor s.v3 m }
  let s := sipRound (sipRound s)
  { s with v0 := Nat.xor s.v0 m }

def sipFinish (s : SipState) : Nat :=
  let s := { s with v2 := Nat.xor s.v2 0xff }
  let s := sipRound (sipRound (sipRound (sipRound s)))
  Nat.xor (Nat.xor s.v0 s.v1) (Nat.xor s.v2 s.v3)

/-- Modelled from the spec: SipHash-2-4 with 128-bit key `(k0, k1)` over a
byte string, as used by `common.Siphash` (implementation not in the given
sources). -/
def Siphash (k0 k1 : Nat) (data : List Nat) : Nat :=
  let s0 : SipState :=
    ⟨Nat.xor (w64 k0) 0x736f6d6570736575, Nat.xor (w64 k1) 0x646f72616e646f6d,
     Nat.xor (w64 k0) 0x6c7967656e657261, Nat.xor (w64 k1) 0x7465646279746573⟩
  sipFinish ((sipBlocksAux data.length (data.length + 1) data).foldl sipCompress s0)

/-! ## SHA-256 (Go `crypto/sha256`, FIPS 180-4) -/

/-- Big-endian rendering of `n` as exactly `w` bytes. -/
def beBytes : Nat → Nat → List Nat
  | 0, _ => []
  | w + 1, n => beBytes w (n / 256) ++ [n % 256]

/-- Big-endian word value of a byte list. -/
def beWord (bs : List Nat) : Nat := bs.foldl (fun acc b => acc * 256 + b % 256) 0

/-- Split a list into consecutive chunks of `k` elements (fuel-driven). -/
def chunksAux (k : Nat) : Nat → List Nat → List (List Nat)
  | 0, _ => []
  | _ + 1, [] => []
  | fuel + 1, bytes => bytes.take k :: chunksAux k fuel (bytes.drop k)

/-- SHA-256 padding: append `0x80`, zeros up to 56 mod 64, then the 8-byte
big-endian bit length. -/
def sha256Pad (msg : List Nat) : List Nat :=
  let z := (120 - (msg.length + 1) % 64) % 64
  msg ++ 0x80 :: List.replicate z 0 ++ beBytes 8 (8 * msg.length)

def shaCh (x y z : Nat) : Nat :=
  Nat.xor (Nat.land x y) (Nat.land (Nat.xor x 0xffffffff) z)

def shaMaj (x y z : Nat) : Nat :=
  Nat.xor (Nat.xor (Nat.land x y) (Nat.land x z)) (Nat.land y z)

def bsig0 (x : Nat) : Nat := Nat.xor (Nat.xor (rotr32 x 2) (rotr32 x 13)) (rotr32 x 22)

def bsig1 (x : Nat) : Nat := Nat.xor (Nat.xor (rotr32 x 6) (rotr32 x 11)) (rotr32 x 25)

def ssig0 (x : Nat) : Nat := Nat.xor (Nat.xor (rotr32 x 7) (rotr32 x 18)) (x >>> 3)

def ssig1 (x : Nat) : Nat := Nat.xor (Nat.xor (rotr32 x 17) (rotr32 x 19)) (x >>> 10)

def sha256K : List Nat :=
  [1116352408, 1899447441, 3049323471, 3921009573, 961987163, 1508970993,
   2453635748, 2870763221, 3624381080, 310598401, 607225278, 1426881987,
   1925078388, 2162078206, 2614888103, 3248222580, 3835390401, 4022224774,
   264347078, 604807628, 770255983, 1249150122, 1555081692, 1996064986,
   2554220882, 2821834349, 2952996808, 3210313671, 3336571891, 3584528711,
   113926993, 338241895, 666307205, 773529912, 1294757372, 1396182291,
   1695183700, 1986661051, 2177026350, 2456956037, 2730485921, 2820302411,
   3259730800, 3345764771, 3516065817, 3600352804, 4094571909, 275423344,
   430227734, 506948616, 659060556, 883997877, 958139571, 1322822218,
   1537002063, 1747873779, 1955562222, 2024104815, 2227730452, 2361852424,
   2428436474, 2756734187, 3204031479, 3329325298]

structure Sha8 where
  a : Nat
  b : Nat
  c : Nat
  d : Nat
  e : Nat
  f : Nat
  g : Nat
  h : Nat

def sha256Init : Sha8 :=
  ⟨1779033703, 3144134277, 1013904242, 2773480762, 1359893119, 2600822924, 528734635, 1541459225⟩

/-- Build the 64-word message schedule; `acc` holds the words produced so
far in reverse order. -/
def sha256ScheduleAux : Nat → List Nat → List Nat
  | 0, acc => acc
  | n + 1, acc =>
    let next := w32 (ssig1 (acc.getD 1 0) + acc.getD 6 0 + ssig0 (acc.getD 14 0) + acc.getD 15 0)
    sha256ScheduleAux n (next :: acc)

def sha256Step (st : Sha8) (kw : Nat × Nat) : Sha8 :=
  let t1 := w32 (st.h + bsig1 st.e + shaCh st.e st.f st.g + kw.1 + kw.2)
  let t2 := w32 (bsig0 st.a + shaMaj st.a st.b st.c)
  ⟨w32 (t1 + t2), st.a, st.b, st.c, w32 (st.d + t1), st.e, st.f, st.g⟩

def sha256Block (h : Sha8) (block : List Nat) : Sha8 :=
  let ws := (chunksAux 4 65 block).map beWord
  let sched := (sha256ScheduleAux 48 ws.reverse).reverse
  let st := (sha256K.zip sched).foldl sha256Step h
  ⟨add32 h.a st.a, add32 h.b st.b, add32 h.c st.c, add32 h.d st.d,
   add32 h.e st.e, add32 h.f st.f, add32 h.g st.g, add32 h.h st.h⟩

/-- SHA-256 digest of a byte string, as 32 bytes. -/
def sha256 (msg : List Nat) : List Nat :=
  let p := sha256Pad msg
  let st := (chunksAux 64 (p.length + 1) p).foldl sha256Block sha256Init
  beBytes 4 st.a ++ beBytes 4 st.b ++ beBytes 4 st.c ++ beBytes 4 st.d ++
  beBytes 4 st.e ++ beBytes 4 st.f ++ beBytes 4 st.g ++ beBytes 4 st.h

/-- conda/workflows.go `ShortDigest`: first 16 hex digits of the SHA-256 of
the content. -/
def ShortDigest (content : List Nat) : String := goTake (Hexdigest (sha256 content)) 16

/-- Modelled from the spec: "`fingerprint(d)` = SipHash over
`canonical_yaml(d)`", "output rendered as a 16-hex-digit lowercase string",
using the repository's fixed SipHash keys. -/
def specSipFingerprint (content : List Nat) : String :=
  hexPad16 (Siphash 9007799254740993 2147487647 content)

/-! ## Substring scanning (Go `strings.Contains` / `strings.ToLower`) -/

def listPrefixOf : List Char → List Char → Bool
  | [], _ => true
  | _ :: _, [] => false
  | a :: as, b :: bs => a == b && listPrefixOf as bs

/-- Go `strings.Contains text needle`: some contiguous run of `text` equals
`needle`. -/
def containsSub (needle : List Char) : List Char → Bool
  | [] => listPrefixOf needle []
  | c :: rest => listPrefixOf needle (c :: rest) || containsSub needle rest

/-- ASCII lowering of a chunk (the signal substrings are all ASCII). -/
def lowered (content : List Char) : List Char := content.map Char.toLower

/-! ## InstallObserver (conda/workflows.go) -/

/-- The Go `InstallObserver` is a `map[string]bool`; keys are only ever set
to `true`, and only the three signal keys are ever inserted, so the map is
exactly a triple of latches. -/
structure InstallObserver where
  safetyerror : Bool
  pkgs : Bool
  corrupted : Bool

def emptyObserver : InstallObserver := ⟨false, false, false⟩

/-- conda/workflows.go `InstallObserver.Write`: lowercase the chunk, latch
each signal whose substring occurs. -/
def observerWrite (st : InstallObserver) (content : List Char) : InstallObserver :=
  let text := lowered content
  let st1 := if containsSub "safetyerror:".data text then { st with safetyerror := true } else st
  let st2 := if containsSub "pkgs".data text then { st1 with pkgs := true } else st1
  if containsSub "appears to be corrupted".data text then { st2 with corrupted := true } else st2

/-- The value `Write` returns: `(len(content), nil)` — the whole chunk is
accepted and no error is ever raised, so the stream is never cut short. -/
def observerWriteResult (content : List Char) : Nat × Bool := (content.length, false)

/-- `len(it)` of the Go map: the number of latched signal keys. -/
def observerLen (st : InstallObserver) : Nat :=
  (if st.safetyerror then 1 else 0) + (if st.pkgs then 1 else 0) +
    (if st.corrupted then 1 else 0)

/-- conda/workflows.go `InstallObserver.HasFailures` decision:
`it["safetyerror"] && it["corrupted"] && len(it) > 2`. -/
def hasFailures (st : InstallObserver) : Bool :=
  st.safetyerror && st.corrupted && decide (2 < observerLen st)

/-- Feeding a whole stream of chunks to the observer. -/
def runObserver (chunks : List (List Char)) : InstallObserver :=
  chunks.foldl observerWrite emptyObserver

/-- Signal latched somewhere across the stream: some chunk contains the
substring after case folding. -/
def observedSignal (sig : List Char) (chunks : List (List Char)) : Bool :=
  chunks.any (fun c => containsSub sig (lowered c))

/-! ## renameRemove (conda/workflows.go) -/

/-- Outcomes of the OS calls `renameRemove` makes, plus the random 32-bit
value drawn for the scratch name. -/
structure RRInput where
  isDir : Bool
  rand : Nat
  renameOk : Bool
  removeAllOk : Bool
  metaIsFile : Bool
  metaRemoveOk : Bool

/-- What a `renameRemove` call did: whether it returned an error, the
scratch name the directory was renamed to (when the rename happened),
whether the recursive delete ran to completion, and whether the `.meta`
sidecar was deleted. -/
structure RREffect where
  errored : Bool
  renamedTo : Option String
  removedDir : Bool
  removedMeta : Bool

def noEffect : RREffect := ⟨false, none, false, false⟩

/-- The scratch name `fmt.Sprintf("%s.%08X", location, rand.Uint32())`. -/
def randomName (location : String) (r : Nat) : String :=
  location ++ "." ++ hexUpper8 (r % 2 ^ 32)

/-- conda/workflows.go `renameRemove`: a non-directory is left alone with a
nil error; a directory is renamed to the scratch name, recursively deleted,
and its `.meta` sidecar removed when that sidecar is a regular file. -/
def renameRemove (location : String) (i : RRInput) : RREffect :=
  if !i.isDir then noEffect
  else if !i.renameOk then ⟨true, none, false, false⟩
  else if !i.removeAllOk then ⟨true, some (randomName location i.rand), false, false⟩
  else if i.metaIsFile then
    ⟨!i.metaRemoveOk, some (randomName location i.rand), true, i.metaRemoveOk⟩
  else ⟨false, some (randomName location i.rand), true, false⟩

/-! ## Pristineness (conda/workflows.go) -/

/-- Observable state of a folder for the pristine check: the result of
re-walking it (`DigestFor`, `none` on error) and of reading its `.meta`
sidecar (`metaLoad`, `none` on error). -/
structure FolderState where
  digest : Option (List Nat)
  meta : Option String

/-- conda/workflows.go `IsPristine`: false as soon as digesting or loading
the metafile fails, otherwise compare the hex digest with the stored text. -/
def IsPristine (f : FolderState) : Bool :=
  match f.digest, f.meta with
  | some d, some m => Hexdigest d == m
  | _, _ => false

/-- Folder state visible after `renameRemove`: once the rename succeeded
the directory itself is gone (digesting fails), and the sidecar is gone
when it was deleted. -/
def renameRemovePost (i : RRInput) (pre : FolderState) : FolderState :=
  if !i.isDir then pre
  else if !i.renameOk then pre
  else if i.removeAllOk && i.metaIsFile && i.metaRemoveOk then ⟨none, none⟩
  else ⟨none, pre.meta⟩

/-- Result of conda/workflows.go `reuseExistingLive`. -/
structure ReuseOutcome where
  reused : Bool
  errored : Bool
  touched : Bool
  rr : RREffect

/-- conda/workflows.go `reuseExistingLive`: in stage-only mode nothing is
reused; a pristine candidate is reused after touching its metafile; a dirty
candidate is rename-removed. -/
def reuseExistingLive (stageonly : Bool) (candidate : String) (cand : FolderState)
    (rr : RRInput) : ReuseOutcome :=
  if stageonly then ⟨false, false, false, noEffect⟩
  else if IsPristine cand then ⟨true, false, true, noEffect⟩
  else
    let e := renameRemove candidate rr
    ⟨false, e.errored, false, e⟩

/-! ## CloneFromTo (conda/workflows.go) -/

/-- Oracles for the filesystem steps of one `CloneFromTo` call. -/
structure CloneEnv where
  liveonly : Bool
  stageonly : Bool
  source : FolderState
  rrTarget1 : RRInput
  rrSource : RRInput
  cloneOk : Bool
  targetDigest : Option (List Nat)
  rrTargetFail : RRInput

structure CloneOutcome where
  success : Bool
  errored : Bool
  metaWritten : Option String
  sourceTouched : Bool
  targetDiscarded : Bool
  discardEffect : RREffect
  sourceRemoved : Bool

/-- conda/workflows.go `CloneFromTo`. -/
def CloneFromTo (source target : String) (e : CloneEnv) : CloneOutcome :=
  let c1 := renameRemove target e.rrTarget1
  if c1.errored then ⟨false, true, none, false, false, noEffect, false⟩
  else if !IsPristine e.source then
    if e.liveonly then ⟨false, false, none, false, false, noEffect, false⟩
    else
      let cs := renameRemove source e.rrSource
      ⟨false, cs.errored, none, false, false, noEffect, true⟩
  else
    match e.source.meta with
    | none => ⟨false, false, none, false, false, noEffect, false⟩
    | some expected =>
      if !e.cloneOk then
        let ct := renameRemove target e.rrTargetFail
        ⟨false, ct.errored, none, false, true, ct, false⟩
      else
        match e.targetDigest with
        | none =>
          let ct := renameRemove target e.rrTargetFail
          ⟨false, ct.errored, none, false, true, ct, false⟩
        | some d =>
          if Hexdigest d == expected then
            ⟨true, false, if e.stageonly then none else some expected, true, false, noEffect,
              false⟩
          else
            let ct := renameRemove target e.rrTargetFail
            ⟨false, ct.errored, none, false, true, ct, false⟩

/-! ## newLiveInternal / newLive (conda/workflows.go) -/

/-- One post-install script: whether `shlex.Split` succeeded and whether
`LiveExecution` returned an error. -/
structure Script where
  parseOk : Bool
  execErr : Bool

/-- Oracles for the external steps of one `newLiveInternal` attempt. -/
structure BuildEnv where
  planOpenOk : Bool
  mambaErr : Bool
  mambaCode : Nat
  chunks : List (List Char)
  rrObserver : RRInput
  reqSize : Option Nat
  pipErr : Bool
  pipCode : Nat
  postInstall : List Script
  markerWriteErr : Bool
  digestOk : Bool
  metaSaveOk : Bool

/-- What one `newLiveInternal` attempt reports and did. -/
structure BuildResult where
  success : Bool
  fatal : Bool
  ttlUsed : Option String
  pipInvoked : Bool
  pipUsed : Bool
  observerFired : Bool
  targetRemoved : RREffect

/-- Shared tail of `newLiveInternal` after the pip phase: post-install
scripts, activation (errors only logged), identity marker write, digest and
`metaSave`. -/
def buildTail (ttl : String) (pipFlag : Bool) (e : BuildEnv) : BuildResult :=
  if e.postInstall.any (fun s => !s.parseOk || s.execErr) then
    ⟨false, false, some ttl, pipFlag, pipFlag, false, noEffect⟩
  else if e.markerWriteErr then ⟨false, false, some ttl, pipFlag, pipFlag, false, noEffect⟩
  else if !e.digestOk then ⟨false, false, some ttl, pipFlag, pipFlag, false, noEffect⟩
  else ⟨e.metaSaveOk, false, some ttl, pipFlag, pipFlag, false, noEffect⟩

/-- conda/workflows.go `newLiveInternal`: returns `(success, fatal)`;
the repodata TTL is `"0"` under force and `"57600"` otherwise; the observer
firing rename-removes the target and is the only fatal outcome. -/
def newLiveInternal (target : String) (force : Bool) (e : BuildEnv) : BuildResult :=
  if !e.planOpenOk then ⟨false, false, none, false, false, false, noEffect⟩
  else
    let ttl := if force then "0" else "57600"
    if e.mambaErr || e.mambaCode != 0 then ⟨false, false, some ttl, false, false, false, noEffect⟩
    else if hasFailures (runObserver e.chunks) then
      ⟨false, true, some ttl, false, false, true, renameRemove target e.rrObserver⟩
    else
      match e.reqSize with
      | none => buildTail ttl false e
      | some 0 => buildTail ttl false e
      | some (_ + 1) =>
        if e.pipErr || e.pipCode != 0 then
          ⟨false, false, some ttl, true, false, false, noEffect⟩
        else buildTail ttl true e

/-- The whole `newLive` run: which attempts were made (their force flags),
their results, whether debug verbosity was forced, and the envelope's
returned `(success, err)`. -/
structure LiveRun where
  success : Bool
  errored : Bool
  attempts : List Bool
  results : List BuildResult
  debugForced : Bool

/-- conda/workflows.go `newLive`: micromamba bootstrap, pre-cleanup, first
attempt, and — only when the first attempt failed non-fatally and the
caller did not force — one forced retry with debug verbosity. -/
def newLive (target : String) (mustMM : Bool) (force : Bool) (rrPre rrRetry : RRInput)
    (e1 e2 : BuildEnv) : LiveRun :=
  if !mustMM then ⟨false, true, [], [], false⟩
  else if (renameRemove target rrPre).errored then ⟨false, true, [], [], false⟩
  else
    let r1 := newLiveInternal target force e1
    if !r1.success && !force && !r1.fatal then
      if (renameRemove target rrRetry).errored then ⟨false, true, [force], [r1], true⟩
      else
        let r2 := newLiveInternal target true e2
        ⟨r2.success, false, [force, true], [r1, r2], true⟩
    else ⟨r1.success, false, [force], [r1], false⟩

/-! ## pathlib: IsSharedDir, Locked.Release, Fake -/

/-- The slice of `os.FileInfo` that `IsSharedDir` consults. -/
structure GoFileInfo where
  isDir : Bool
  mode : Nat

/-- pathlib/functions.go `hasCorrectMode`: all expected bits present. -/
def hasCorrectMode (stat : GoFileInfo) (expected : Nat) : Bool :=
  expected == Nat.land stat.mode expected

/-- pathlib/functions.go `IsSharedDir`; `none` models an `os.Stat` error. -/
def IsSharedDir (stat : Option GoFileInfo) : Bool :=
  match stat with
  | none => false
  | some s => s.isDir && hasCorrectMode s 0o777

/-- The claim's reading of the spec sentence: a directory whose mode bits
include world(other)-rwx, i.e. the 0o007 bits. -/
def specIsSharedDir (stat : Option GoFileInfo) : Bool :=
  match stat with
  | none => false
  | some s => s.isDir && (Nat.land s.mode 0o007 == 0o007)

/-- Observable state of one `Locked` value: whether its lock file is still
open and whether its PID marker file exists. -/
structure LockState where
  fileOpen : Bool
  markerExists : Bool

/-- State right after `Locker` succeeded. -/
def acquiredLock : LockState := ⟨true, true⟩

/-- pathlib/lock_unix.go `Locked.Release`: `flock(fd, LOCK_UN)` — which
fails with `EBADF` once the file has been closed, since `Fd()` of a closed
`os.File` is invalid — then the deferred calls close the file and remove
the PID marker, ignoring their own errors.  Returns (error?, new state). -/
def lockedRelease (st : LockState) : Bool × LockState :=
  (!st.fileOpen, ⟨false, false⟩)

/-- pathlib (fake releaser) `fake.Release`: only a trace call.  Modelled
from the spec for the missing `common.Trace` body: tracing never reports an
error, so the value returned is always nil. -/
def fakeRelease : Bool := false

/-! ## UserHomeIdentity (common sources) -/

/-- common `UserHomeIdentity`: `%02x` of the SipHash of the home directory
bytes, truncated to its first 7 characters.  `none` models the Go panic of
`digest[:7]` when the rendering is shorter than 7 characters. -/
def UserHomeIdentity (unmanaged : Bool) (home : Option (List Nat)) : Option String :=
  if unmanaged then some "UNMNGED"
  else
    match home with
    | none => some "badcafe"
    | some location =>
      let digest := hexMin2 (Siphash 9007799254740993 2147487647 location)
      if digest.length < 7 then none else some (goTake digest 7)

/-- The seven-hex user-home fingerprint described by the spec. -/
def sipHomeFingerprint (location : List Nat) : String :=
  goTake (hexMin2 (Siphash 9007799254740993 2147487647 location)) 7

/-- Lowercase hex alphabet membership. -/
def isHexLower (c : Char) : Bool := "0123456789abcdef".data.contains c

/-- Uppercase hex alphabet membership. -/
def isHexUpper (c : Char) : Bool := "0123456789ABCDEF".data.contains c

/-! ## Supporting lemmas -/

theorem stringLength_mk (l : List Char) : (String.mk l).length = l.length := rfl

theorem beBytes_length : ∀ w n, (beBytes w n).length = w := by
  intro w
  induction w with
  | zero => intro n; rfl
  | succ w ih => intro n; simp [beBytes, ih]

theorem hexBytes_length (raw : List Nat) : (hexBytes raw).length = 2 * raw.length := by
  induction raw with
  | nil => rfl
  | cons b bs ih => simp [hexBytes] at ih ⊢; omega

theorem sha256_length (msg : List Nat) : (sha256 msg).length = 32 := by
  simp [sha256, beBytes_length]

theorem hexLowerFin : ∀ k : Fin 16, isHexLower (hexDigitChar k.val) = true := by decide

theorem hexUpperFin : ∀ k : Fin 16, isHexUpper (hexUpperChar k.val) = true := by decide

theorem isHexLower_hexDigitChar_mod (n : Nat) : isHexLower (hexDigitChar (n % 16)) = true :=
  hexLowerFin ⟨n % 16, Nat.mod_lt _ (by norm_num)⟩

theorem mem_hexBytes_isHexLower (raw : List Nat) :
    ∀ c ∈ hexBytes raw, isHexLower c = true := by
  induction raw with
  | nil => intro c hc; simp [hexBytes] at hc
  | cons b bs ih =>
    intro c hc
    have hstep : hexBytes (b :: bs) =
        hexDigitChar (b % 256 / 16) :: hexDigitChar (b % 16) :: hexBytes bs := rfl
    rw [hstep, List.mem_cons, List.mem_cons] at hc
    rcases hc with h | h | h
    · subst h
      have hlt : b % 256 / 16 < 16 := Nat.div_lt_of_lt_mul (by omega : b % 256 < 16 * 16)
      simpa using hexLowerFin ⟨b % 256 / 16, hlt⟩
    · subst h
      exact isHexLower_hexDigitChar_mod b
    · exact ih c h

theorem hexDigitsAux_length_le (dig : Nat → Char) :
    ∀ fuel n k, n < 16 ^ k → (hexDigitsAux dig fuel n).length ≤ k := by
  intro fuel
  induction fuel with
  | zero => intro n k _; simp [hexDigitsAux]
  | succ fuel ih =>
    intro n k hn
    cases n with
    | zero => simp [hexDigitsAux]
    | succ m =>
      cases k with
      | zero => omega
      | succ k =>
        have h2 : (m + 1) / 16 < 16 ^ k := by
          apply Nat.div_lt_of_lt_mul
          have : 16 ^ (k + 1) = 16 ^ k * 16 := pow_succ 16 k
          omega
        have := ih ((m + 1) / 16) k h2
        have hstep : hexDigitsAux dig (fuel + 1) (m + 1) =
            hexDigitsAux dig fuel ((m + 1) / 16) ++ [dig ((m + 1) % 16)] := rfl
        rw [hstep]
        simp only [List.length_append, List.length_singleton]
        omega

theorem mem_hexDigitsAux_lower :
    ∀ fuel n c, c ∈ hexDigitsAux hexDigitChar fuel n → isHexLower c = true := by
  intro fuel
  induction fuel with
  | zero => intro n c hc; simp [hexDigitsAux] at hc
  | succ fuel ih =>
    intro n c hc
    cases n with
    | zero => simp [hexDigitsAux] at hc
    | succ m =>
      have hstep : hexDigitsAux hexDigitChar (fuel + 1) (m + 1) =
          hexDigitsAux hexDigitChar fuel ((m + 1) / 16) ++ [hexDigitChar ((m + 1) % 16)] := rfl
      rw [hstep, List.mem_append, List.mem_singleton] at hc
      rcases hc with h | h
      · exact ih _ c h
      · subst h; exact isHexLower_hexDigitChar_mod (m + 1)

theorem isHexUpper_hexUpperChar_mod (n : Nat) : isHexUpper (hexUpperChar (n % 16)) = true :=
  hexUpperFin ⟨n % 16, Nat.mod_lt _ (by norm_num)⟩

theorem mem_hexDigitsAux_upper :
    ∀ fuel n c, c ∈ hexDigitsAux hexUpperChar fuel n → isHexUpper c = true := by
  intro fuel
  induction fuel with
  | zero => intro n c hc; simp [hexDigitsAux] at hc
  | succ fuel ih =>
    intro n c hc
    cases n with
    | zero => simp [hexDigitsAux] at hc
    | succ m =>
      have hstep : hexDigitsAux hexUpperChar (fuel + 1) (m + 1) =
          hexDigitsAux hexUpperChar fuel ((m + 1) / 16) ++ [hexUpperChar ((m + 1) % 16)] := rfl
      rw [hstep, List.mem_append, List.mem_singleton] at hc
      rcases hc with h | h
      · exact ih _ c h
      · subst h; exact isHexUpper_hexUpperChar_mod (m + 1)

theorem leftPad_length (w : Nat) (c : Char) (s : List Char) :
    (leftPad w c s).length = max w s.length := by
  simp [leftPad]
  omega

theorem hexUpper8_length (n : Nat) (hn : n < 2 ^ 32) : (hexUpper8 n).data.length = 8 := by
  have hd : (hexDigitsAux hexUpperChar 16 n).length ≤ 8 := by
    apply hexDigitsAux_length_le
    norm_num at hn ⊢
    omega
  simp [hexUpper8, leftPad_length]
  omega

theorem observerWrite_eq (st : InstallObserver) (c : List Char) :
    observerWrite st c =
      ⟨st.safetyerror || containsSub "safetyerror:".data (lowered c),
       st.pkgs || containsSub "pkgs".data (lowered c),
       st.corrupted || containsSub "appears to be corrupted".data (lowered c)⟩ := by
  rcases st with ⟨s, p, q⟩
  simp only [observerWrite]
  cases h1 : containsSub "safetyerror:".data (lowered c) <;>
    cases h2 : containsSub "pkgs".data (lowered c) <;>
      cases h3 : containsSub "appears to be corrupted".data (lowered c) <;>
        simp

theorem runObserver_foldl (chunks : List (List Char)) :
    ∀ st : InstallObserver, chunks.foldl observerWrite st =
      ⟨st.safetyerror || observedSignal "safetyerror:".data chunks,
       st.pkgs || observedSignal "pkgs".data chunks,
       st.corrupted || observedSignal "appears to be corrupted".data chunks⟩ := by
  induction chunks with
  | nil => intro st; simp [observedSignal]
  | cons c cs ih =>
    intro st
    rw [List.foldl_cons, observerWrite_eq, ih]
    simp [observedSignal, List.any_cons, Bool.or_assoc]

theorem runObserver_eq (chunks : List (List Char)) :
    runObserver chunks =
      ⟨observedSignal "safetyerror:".data chunks,
       observedSignal "pkgs".data chunks,
       observedSignal "appears to be corrupted".data chunks⟩ := by
  rw [runObserver, runObserver_foldl]
  rfl

theorem hasFailures_three (st : InstallObserver) :
    hasFailures st = (st.safetyerror && st.pkgs && st.corrupted) := by
  rcases st with ⟨s, p, q⟩
  cases s <;> cases p <;> cases q <;> rfl

theorem mem_hexUpper8 (n : Nat) : ∀ c ∈ (hexUpper8 n).data, isHexUpper c = true := by
  intro c hc
  simp only [hexUpper8, leftPad] at hc
  rw [List.mem_append] at hc
  rcases hc with h | h
  · rw [List.mem_replicate] at h
    rw [h.2]
    decide
  · exact mem_hexDigitsAux_upper 16 n c h

set_option maxRecDepth 1000000

/-- C1 (amended): the environment key `ShortDigest` of a canonical yaml byte
string is the first 16 lowercase hex digits of the SHA-256 digest of those
bytes (not a SipHash fingerprint), and is always 16 lowercase hex digits
long. -/
theorem shortDigest_sha256_key (content : List Nat) :
    ShortDigest content = goTake (Hexdigest (sha256 content)) 16 ∧
    (ShortDigest content).length = 16 ∧
    ∀ c ∈ (ShortDigest content).data, isHexLower c = true := by
  refine ⟨rfl, ?_, ?_⟩
  · have h1 : (hexBytes (sha256 content)).length = 64 := by
      rw [hexBytes_length, sha256_length]
    show ((hexBytes (sha256 content)).take 16).length = 16
    rw [List.length_take, h1]
    rfl
  · intro c hc
    have hdata : (ShortDigest content).data = (hexBytes (sha256 content)).take 16 := rfl
    rw [hdata] at hc
    exact mem_hexBytes_isHexLower (sha256 content) c (List.take_subset _ _ hc)

/-- C1 counterexample: on the empty canonical body the key produced by
`ShortDigest` differs from the 16-hex SipHash fingerprint the spec
prescribes, so the fingerprint is not computed with SipHash. -/
theorem shortDigest_ne_sipFingerprint : ShortDigest [] ≠ specSipFingerprint [] := by decide

/-- C7 (amended): `IsSharedDir` returns true iff the path stats
successfully, is a directory, and its mode bits include rwx for owner,
group and world — the full 0o777 mask, not merely the world bits. -/
theorem isSharedDir_iff (stat : Option GoFileInfo) :
    IsSharedDir stat = true ↔
      ∃ s, stat = some s ∧ s.isDir = true ∧ Nat.land s.mode 0o777 = 0o777 := by
  cases stat with
  | none => simp [IsSharedDir]
  | some s =>
    simp only [IsSharedDir, hasCorrectMode, Bool.and_eq_true, beq_iff_eq, Option.some_inj]
    constructor
    · rintro ⟨h1, h2⟩
      exact ⟨s, rfl, h1, h2.symm⟩
    · rintro ⟨t, ht, h1, h2⟩
      cases ht
      exact ⟨h1, h2.symm⟩

/-- C7 counterexample: a directory whose mode is exactly 0o007 has the
world-rwx bits set, yet `IsSharedDir` rejects it, so the code does not
implement "mode bits include world-rwx". -/
theorem isSharedDir_world_rwx_cex :
    specIsSharedDir (some ⟨true, 0o007⟩) = true ∧
    IsSharedDir (some ⟨true, 0o007⟩) = false := by decide

/-- C7 witness: a fully shared 0o777 directory satisfies the amended
characterization. -/
theorem isSharedDir_iff_witness : IsSharedDir (some ⟨true, 0o777⟩) = true :=
  (isSharedDir_iff (some ⟨true, 0o777⟩)).mpr ⟨⟨true, 0o777⟩, rfl, rfl, by decide⟩

/-- C8 (amended): releasing an acquired lock reports no error, closes the
lock file and deletes the PID marker; a second release of the same releaser
performs no further state change, but while the lockless releaser always
reports no error, the real releaser's second release returns the error of
unlocking its already-closed descriptor. -/
theorem lockRelease_spec :
    lockedRelease acquiredLock = (false, ⟨false, false⟩) ∧
    (∀ st : LockState,
        (lockedRelease (lockedRelease st).2).2 = (lockedRelease st).2 ∧
        (lockedRelease (lockedRelease st).2).1 = true) ∧
    fakeRelease = false :=
  ⟨rfl, fun _ => ⟨rfl, rfl⟩, rfl⟩

/-- C8 counterexample: the second release of the real releaser is not
error-free, refuting "a double release is a no-op" for `Locked.Release`. -/
theorem lockRelease_double_not_noop :
    ¬((lockedRelease (lockedRelease acquiredLock).2).1 = false) := by decide

/-- C8 witness: concrete double release starting from the acquired state. -/
theorem lockRelease_spec_witness :
    (lockedRelease (lockedRelease acquiredLock).2).2 = (lockedRelease acquiredLock).2 :=
  (lockRelease_spec.2.1 acquiredLock).1

/-- C10: `renameRemove` on a non-directory succeeds and leaves the
filesystem untouched; on a directory it renames it to
`<path>.<8-hex-digits>` (uppercase, from a random 32-bit value), recursively
deletes it, additionally removes the `.meta` sidecar when that sidecar is a
regular file, and afterwards the location can no longer be judged pristine. -/
theorem renameRemove_spec (location : String) (i : RRInput) (pre : FolderState) :
    (i.isDir = false → renameRemove location i = noEffect ∧ renameRemovePost i pre = pre) ∧
    (i.isDir = true → i.renameOk = true →
      (renameRemove location i).renamedTo =
          some (location ++ "." ++ hexUpper8 (i.rand % 2 ^ 32)) ∧
      (hexUpper8 (i.rand % 2 ^ 32)).data.length = 8 ∧
      (∀ c ∈ (hexUpper8 (i.rand % 2 ^ 32)).data, isHexUpper c = true) ∧
      (i.removeAllOk = true →
        (renameRemove location i).removedDir = true ∧
        (i.metaIsFile = true → i.metaRemoveOk = true →
          (renameRemove location i).removedMeta = true)) ∧
      IsPristine (renameRemovePost i pre) = false) := by
  constructor
  · intro h
    constructor
    · simp [renameRemove, h]
    · simp [renameRemovePost, h]
  · intro hd hr
    refine ⟨?_, hexUpper8_length _ (Nat.mod_lt _ (by norm_num)), mem_hexUpper8 _, ?_, ?_⟩
    · cases hra : i.removeAllOk <;> cases hmf : i.metaIsFile <;>
        simp [renameRemove, hd, hr, hra, hmf, randomName]
    · intro hra
      constructor
      · cases hmf : i.metaIsFile <;> simp [renameRemove, hd, hr, hra, hmf]
      · intro hmf hmr
        simp [renameRemove, hd, hr, hra, hmf, hmr]
    · rw [renameRemovePost]
      simp only [hd, hr, Bool.not_true, Bool.false_eq_true, if_false]
      split <;> simp [IsPristine]

/-- C10 witness: a concrete directory removal with every OS step
succeeding. -/
theorem renameRemove_spec_witness :
    (renameRemove "live" ⟨true, 0xDEADBEEF, true, true, true, true⟩).removedDir = true :=
  (((renameRemove_spec "live" ⟨true, 0xDEADBEEF, true, true, true, true⟩
      ⟨some [], some ""⟩).2 rfl rfl).2.2.2.1 rfl).1

/-- C4: a folder is pristine iff re-digesting succeeds and matches the hex
string stored in its `.meta` (false whenever digesting or loading fails);
on materialize, a pristine live space is reused after only touching its
`.meta`, and a dirty one is rename-removed before rebuilding. -/
theorem isPristine_reuse_spec (candidate : String) (cand : FolderState) (rr : RRInput) :
    (IsPristine cand = true ↔
      ∃ d m, cand.digest = some d ∧ cand.meta = some m ∧ Hexdigest d = m) ∧
    (IsPristine cand = true →
      reuseExistingLive false candidate cand rr = ⟨true, false, true, noEffect⟩) ∧
    (IsPristine cand = false →
      (reuseExistingLive false candidate cand rr).reused = false ∧
      (reuseExistingLive false candidate cand rr).touched = false ∧
      (reuseExistingLive false candidate cand rr).rr = renameRemove candidate rr ∧
      (rr.isDir = true → rr.renameOk = true → rr.removeAllOk = true →
        (renameRemove candidate rr).removedDir = true ∧
        (renameRemove candidate rr).renamedTo = some (randomName candidate rr.rand))) := by
  refine ⟨?_, ?_, ?_⟩
  · rcases cand with ⟨d, m⟩
    cases d <;> cases m <;> simp [IsPristine]
  · intro h
    simp [reuseExistingLive, h]
  · intro h
    refine ⟨?_, ?_, ?_, ?_⟩
    · simp [reuseExistingLive, h]
    · simp [reuseExistingLive, h]
    · simp [reuseExistingLive, h]
    · intro hd hr hra
      cases hmf : rr.metaIsFile <;>
        simp [renameRemove, hd, hr, hra, hmf, randomName]

/-- C4 witness: a pristine candidate is reused with only a touch, and a
dirty one is rename-removed. -/
theorem isPristine_reuse_spec_witness :
    reuseExistingLive false "live" ⟨some [0], some "00"⟩ ⟨true, 1, true, true, true, true⟩ =
      ⟨true, false, true, noEffect⟩ :=
  (isPristine_reuse_spec "live" ⟨some [0], some "00"⟩ ⟨true, 1, true, true, true, true⟩).2.1
    (by decide)

theorem isPristine_iff (f : FolderState) :
    IsPristine f = true ↔
      ∃ d m, f.digest = some d ∧ f.meta = some m ∧ Hexdigest d = m := by
  rcases f with ⟨d, m⟩
  cases d <;> cases m <;> simp [IsPristine]

/-- C5: `CloneFromTo` succeeds only when the source is pristine and the
re-digested target matches the source's expected digest; any clone error or
digest mismatch discards the target and reports no success; on success the
target's `.meta` holds the expected digest, so the clone itself is pristine
(outside stage-only mode, in which `metaSave` is a no-op). -/
theorem cloneFromTo_spec (source target : String) (e : CloneEnv) :
    ((CloneFromTo source target e).success = true →
      IsPristine e.source = true ∧
      ∃ d expected, e.targetDigest = some d ∧ e.source.meta = some expected ∧
        Hexdigest d = expected ∧
        (e.stageonly = false →
          (CloneFromTo source target e).metaWritten = some expected ∧
          IsPristine ⟨e.targetDigest, (CloneFromTo source target e).metaWritten⟩ = true)) ∧
    (IsPristine e.source = false → (CloneFromTo source target e).success = false) ∧
    ((renameRemove target e.rrTarget1).errored = false → IsPristine e.source = true →
      (e.cloneOk = false ∨ e.targetDigest = none ∨
        (∃ d m, e.targetDigest = some d ∧ e.source.meta = some m ∧ Hexdigest d ≠ m)) →
      (CloneFromTo source target e).success = false ∧
      (CloneFromTo source target e).targetDiscarded = true ∧
      (CloneFromTo source target e).discardEffect = renameRemove target e.rrTargetFail) := by
  refine ⟨?_, ?_, ?_⟩
  · intro hs
    cases hc1 : (renameRemove target e.rrTarget1).errored with
    | true => simp [CloneFromTo, hc1] at hs
    | false =>
      cases hp : IsPristine e.source with
      | false =>
        cases hl : e.liveonly <;> simp [CloneFromTo, hc1, hp, hl] at hs
      | true =>
        obtain ⟨ds, ms, hds, hms, hdsm⟩ := (isPristine_iff e.source).mp hp
        cases hck : e.cloneOk with
        | false => simp [CloneFromTo, hc1, hp, hms, hck] at hs
        | true =>
          cases htd : e.targetDigest with
          | none => simp [CloneFromTo, hc1, hp, hms, hck, htd] at hs
          | some d =>
            cases hq : (Hexdigest d == ms) with
            | false => simp [CloneFromTo, hc1, hp, hms, hck, htd, hq] at hs
            | true =>
              refine ⟨rfl, d, ms, rfl, hms, beq_iff_eq.mp hq, ?_⟩
              intro hst
              have hmw : (CloneFromTo source target e).metaWritten = some ms := by
                simp [CloneFromTo, hc1, hp, hms, hck, htd, hq, hst]
              refine ⟨hmw, ?_⟩
              rw [hmw]
              simp [IsPristine, hq]
  · intro hp
    cases hc1 : (renameRemove target e.rrTarget1).errored <;>
      cases hl : e.liveonly <;> simp [CloneFromTo, hc1, hp, hl]
  · intro hc1 hp hbad
    obtain ⟨ds, ms, hds, hms, hdsm⟩ := (isPristine_iff e.source).mp hp
    rcases hbad with hck | htd | ⟨d, m, htd, hm, hne⟩
    · refine ⟨?_, ?_, ?_⟩ <;> simp [CloneFromTo, hc1, hp, hms, hck]
    · refine ⟨?_, ?_, ?_⟩ <;> simp [CloneFromTo, hc1, hp, hms, htd]
    · have hm' : m = ms := by rw [hm] at hms; exact (Option.some_inj.mp hms)
      subst hm'
      have hq : (Hexdigest d == m) = false := beq_eq_false_iff_ne.mpr hne
      refine ⟨?_, ?_, ?_⟩ <;> simp [CloneFromTo, hc1, hp, hms, htd, hq]

/-- C5 witness: a concrete successful clone of a pristine source whose
target re-digest matches, yielding a pristine source judgement. -/
theorem cloneFromTo_spec_witness :
    IsPristine (⟨some [0], some "00"⟩ : FolderState) = true :=
  ((cloneFromTo_spec "base" "live"
      ⟨false, false, ⟨some [0], some "00"⟩, ⟨false, 0, true, true, false, true⟩,
        ⟨false, 0, true, true, false, true⟩, true, some [0],
        ⟨true, 0, true, true, false, true⟩⟩).1 (by decide)).1

theorem buildTail_fields (ttl : String) (pipFlag : Bool) (e : BuildEnv) :
    (buildTail ttl pipFlag e).pipInvoked = pipFlag ∧
    (buildTail ttl pipFlag e).pipUsed = pipFlag ∧
    (buildTail ttl pipFlag e).fatal = false ∧
    (buildTail ttl pipFlag e).ttlUsed = some ttl := by
  unfold buildTail
  split
  · exact ⟨rfl, rfl, rfl, rfl⟩
  · split
    · exact ⟨rfl, rfl, rfl, rfl⟩
    · split
      · exact ⟨rfl, rfl, rfl, rfl⟩
      · exact ⟨rfl, rfl, rfl, rfl⟩

theorem buildTail_success (ttl : String) (pipFlag : Bool) (e : BuildEnv)
    (h1 : e.postInstall.any (fun s => !s.parseOk || s.execErr) = false)
    (h2 : e.markerWriteErr = false) (h3 : e.digestOk = true) :
    (buildTail ttl pipFlag e).success = e.metaSaveOk := by
  unfold buildTail
  simp [h1, h2, h3]

theorem newLiveInternal_observerFatal (target : String) (force : Bool) (e : BuildEnv)
    (hplan : e.planOpenOk = true) (hmerr : e.mambaErr = false) (hmcode : e.mambaCode = 0)
    (hobs : hasFailures (runObserver e.chunks) = true) :
    newLiveInternal target force e =
      ⟨false, true, some (if force then "0" else "57600"), false, false, true,
        renameRemove target e.rrObserver⟩ := by
  unfold newLiveInternal
  simp [hplan, hmerr, hmcode, hobs]

theorem newLiveInternal_ttl (target : String) (force : Bool) (e : BuildEnv)
    (hplan : e.planOpenOk = true) :
    (newLiveInternal target force e).ttlUsed = some (if force then "0" else "57600") := by
  unfold newLiveInternal
  simp only [hplan, Bool.not_true, Bool.false_eq_true, if_false]
  split
  · rfl
  · split
    · rfl
    · split
      · exact (buildTail_fields _ _ _).2.2.2
      · exact (buildTail_fields _ _ _).2.2.2
      · split
        · rfl
        · exact (buildTail_fields _ _ _).2.2.2

/-- C6: with the earlier phases passed, the pip installer is invoked iff the
generated requirements file exists with non-zero size; when it is absent or
empty the installer is never invoked, the pip-used flag stays false, and the
build still runs to successful completion when the remaining phases pass. -/
theorem pip_phase_spec (target : String) (force : Bool) (e : BuildEnv)
    (hplan : e.planOpenOk = true) (hmerr : e.mambaErr = false) (hmcode : e.mambaCode = 0)
    (hobs : hasFailures (runObserver e.chunks) = false) :
    ((newLiveInternal target force e).pipInvoked = true ↔ ∃ n, e.reqSize = some (n + 1)) ∧
    ((e.reqSize = none ∨ e.reqSize = some 0) →
      (newLiveInternal target force e).pipInvoked = false ∧
      (newLiveInternal target force e).pipUsed = false ∧
      (e.postInstall.any (fun s => !s.parseOk || s.execErr) = false →
        e.markerWriteErr = false → e.digestOk = true → e.metaSaveOk = true →
        (newLiveInternal target force e).success = true)) ∧
    (∀ n, e.reqSize = some (n + 1) → e.pipErr = false → e.pipCode = 0 →
      e.postInstall.any (fun s => !s.parseOk || s.execErr) = false →
      e.markerWriteErr = false → e.digestOk = true → e.metaSaveOk = true →
      (newLiveInternal target force e).pipUsed = true ∧
      (newLiveInternal target force e).success = true) := by
  have hred : newLiveInternal target force e =
      (match e.reqSize with
        | none => buildTail (if force then "0" else "57600") false e
        | some 0 => buildTail (if force then "0" else "57600") false e
        | some (_ + 1) =>
          if e.pipErr || e.pipCode != 0 then
            ⟨false, false, some (if force then "0" else "57600"), true, false, false, noEffect⟩
          else buildTail (if force then "0" else "57600") true e) := by
    unfold newLiveInternal
    simp [hplan, hmerr, hmcode, hobs]
  refine ⟨?_, ?_, ?_⟩
  · rw [hred]
    cases hreq : e.reqSize with
    | none => simp [(buildTail_fields _ _ _).1]
    | some n =>
      cases n with
      | zero => simp [(buildTail_fields _ _ _).1]
      | succ m =>
        cases hpf : (e.pipErr || e.pipCode != 0) <;>
          simp [hpf, (buildTail_fields _ _ _).1]
  · intro hempty
    rw [hred]
    rcases hempty with h | h <;> rw [h]
    · exact ⟨(buildTail_fields _ _ _).1, (buildTail_fields _ _ _).2.1,
        fun h1 h2 h3 h4 => by rw [buildTail_success _ _ _ h1 h2 h3, h4]⟩
    · exact ⟨(buildTail_fields _ _ _).1, (buildTail_fields _ _ _).2.1,
        fun h1 h2 h3 h4 => by rw [buildTail_success _ _ _ h1 h2 h3, h4]⟩
  · intro n hreq hperr hpcode h1 h2 h3 h4
    rw [hred, hreq]
    have hpf : (e.pipErr || e.pipCode != 0) = false := by simp [hperr, hpcode]
    rw [hpf]
    simp only [Bool.false_eq_true, if_false]
    exact ⟨(buildTail_fields _ _ _).2.1, by rw [buildTail_success _ _ _ h1 h2 h3, h4]⟩

/-- C6 witness: a build with no pip requirements skips the installer and
still succeeds. -/
theorem pip_phase_spec_witness :
    (newLiveInternal "t" false
        ⟨true, false, 0, [], ⟨false, 0, true, true, false, true⟩, none, false, 0, [],
          false, true, true⟩).success = true :=
  ((pip_phase_spec "t" false _ rfl rfl rfl (by decide)).2.1 (Or.inl rfl)).2.2 rfl rfl rfl rfl

theorem newLive_noRetry (target : String) (mustMM force : Bool) (rrPre rrRetry : RRInput)
    (e1 e2 : BuildEnv) (hmm : mustMM = true)
    (hpre : (renameRemove target rrPre).errored = false)
    (hstop : ¬((newLiveInternal target force e1).success = false ∧ force = false ∧
      (newLiveInternal target force e1).fatal = false)) :
    newLive target mustMM force rrPre rrRetry e1 e2 =
      ⟨(newLiveInternal target force e1).success, false, [force],
        [newLiveInternal target force e1], false⟩ := by
  unfold newLive
  simp only [hmm, hpre, Bool.not_true, Bool.false_eq_true, if_false]
  have hcond : (!(newLiveInternal target force e1).success && !force &&
      !(newLiveInternal target force e1).fatal) = false := by
    cases hs : (newLiveInternal target force e1).success <;>
      cases hf : (newLiveInternal target force e1).fatal <;>
        cases hfo : force <;> simp_all
  rw [hcond]
  simp

theorem newLive_retry (target : String) (rrPre rrRetry : RRInput) (e1 e2 : BuildEnv)
    (hpre : (renameRemove target rrPre).errored = false)
    (hretry : (renameRemove target rrRetry).errored = false)
    (h1 : (newLiveInternal target false e1).success = false)
    (h3 : (newLiveInternal target false e1).fatal = false) :
    newLive target true false rrPre rrRetry e1 e2 =
      ⟨(newLiveInternal target true e2).success, false, [false, true],
        [newLiveInternal target false e1, newLiveInternal target true e2], true⟩ := by
  unfold newLive
  simp only [hpre, hretry, Bool.not_true, Bool.not_false, Bool.false_eq_true, if_false]
  rw [h1, h3]
  simp

theorem newLive_attempts_le (target : String) (mustMM force : Bool) (rrPre rrRetry : RRInput)
    (e1 e2 : BuildEnv) :
    (newLive target mustMM force rrPre rrRetry e1 e2).attempts.length ≤ 2 := by
  unfold newLive
  split
  · simp
  · split
    · simp
    · split
      · dsimp only
        split <;> simp
      · dsimp only
        split <;> simp

/-- C3: the retry envelope makes at most two attempts; exactly when the
first attempt fails, the caller did not force, and the failure was not
fatal, a single retry runs with the force flag set (hence repodata TTL "0")
and debug verbosity forced, and the envelope's result is the second
attempt's result — a second failure is returned without a third attempt. -/
theorem retry_envelope_spec :
    (∀ (target : String) (mustMM force : Bool) (rrPre rrRetry : RRInput) (e1 e2 : BuildEnv),
        (newLive target mustMM force rrPre rrRetry e1 e2).attempts.length ≤ 2) ∧
    (∀ (target : String) (force : Bool) (rrPre rrRetry : RRInput) (e1 e2 : BuildEnv),
        (renameRemove target rrPre).errored = false →
        (renameRemove target rrRetry).errored = false →
        (((newLive target true force rrPre rrRetry e1 e2).attempts.length = 2) ↔
          ((newLiveInternal target force e1).success = false ∧ force = false ∧
            (newLiveInternal target force e1).fatal = false)) ∧
        ((newLiveInternal target force e1).success = false → force = false →
          (newLiveInternal target force e1).fatal = false →
          (newLive target true force rrPre rrRetry e1 e2).attempts = [false, true] ∧
          (newLive target true force rrPre rrRetry e1 e2).debugForced = true ∧
          (newLive target true force rrPre rrRetry e1 e2).success =
            (newLiveInternal target true e2).success ∧
          (e2.planOpenOk = true → (newLiveInternal target true e2).ttlUsed = some "0")) ∧
        (¬((newLiveInternal target force e1).success = false ∧ force = false ∧
            (newLiveInternal target force e1).fatal = false) →
          (newLive target true force rrPre rrRetry e1 e2).attempts = [force] ∧
          (newLive target true force rrPre rrRetry e1 e2).success =
            (newLiveInternal target force e1).success)) := by
  refine ⟨fun target mustMM force rrPre rrRetry e1 e2 =>
    newLive_attempts_le target mustMM force rrPre rrRetry e1 e2, ?_⟩
  intro target force rrPre rrRetry e1 e2 hpre hretry
  refine ⟨⟨?_, ?_⟩, ?_, ?_⟩
  · intro hlen
    by_contra hnot
    rw [newLive_noRetry target true force rrPre rrRetry e1 e2 rfl hpre hnot] at hlen
    simp at hlen
  · rintro ⟨h1, h2, h3⟩
    subst h2
    rw [newLive_retry target rrPre rrRetry e1 e2 hpre hretry h1 h3]
    rfl
  · intro h1 h2 h3
    subst h2
    rw [newLive_retry target rrPre rrRetry e1 e2 hpre hretry h1 h3]
    refine ⟨rfl, rfl, rfl, fun hp => ?_⟩
    rw [newLiveInternal_ttl target true e2 hp]
    rfl
  · intro hnot
    rw [newLive_noRetry target true force rrPre rrRetry e1 e2 rfl hpre hnot]
    exact ⟨rfl, rfl⟩

/-- C3 witness: a first non-fatal failure triggers exactly one forced,
debug-enabled retry. -/
theorem retry_envelope_spec_witness :
    (newLive "t" true false ⟨false, 0, true, true, false, true⟩
        ⟨false, 0, true, true, false, true⟩
        ⟨true, true, 1, [], ⟨false, 0, true, true, false, true⟩, none, false, 0, [],
          false, true, true⟩
        ⟨true, false, 0, [], ⟨false, 0, true, true, false, true⟩, none, false, 0, [],
          false, true, true⟩).attempts = [false, true] :=
  ((retry_envelope_spec.2 "t" false _ _ _ _ (by decide) (by decide)).2.1
    (by decide) rfl (by decide)).1

/-- C2: accumulated over the whole stream, `HasFailures` fires exactly when
all three corruption substrings were observed case-insensitively (each
latched independently, the length guard encoding the third signal); the
observer never cuts the stream short; and when it fires the staged target
is rename-removed and the attempt is fatal, so the envelope never retries. -/
theorem installObserver_spec :
    (∀ chunks : List (List Char),
        hasFailures (runObserver chunks) =
          (observedSignal "safetyerror:".data chunks &&
           observedSignal "pkgs".data chunks &&
           observedSignal "appears to be corrupted".data chunks)) ∧
    (∀ content : List Char, observerWriteResult content = (content.length, false)) ∧
    (∀ (target : String) (force : Bool) (e : BuildEnv),
        e.planOpenOk = true → e.mambaErr = false → e.mambaCode = 0 →
        hasFailures (runObserver e.chunks) = true →
        (newLiveInternal target force e).success = false ∧
        (newLiveInternal target force e).fatal = true ∧
        (newLiveInternal target force e).targetRemoved = renameRemove target e.rrObserver ∧
        (e.rrObserver.isDir = true → e.rrObserver.renameOk = true →
          e.rrObserver.removeAllOk = true →
          (renameRemove target e.rrObserver).removedDir = true)) ∧
    (∀ (target : String) (mustMM force : Bool) (rrPre rrRetry : RRInput) (e1 e2 : BuildEnv),
        e1.planOpenOk = true → e1.mambaErr = false → e1.mambaCode = 0 →
        hasFailures (runObserver e1.chunks) = true →
        (newLive target mustMM force rrPre rrRetry e1 e2).attempts.length ≤ 1) := by
  refine ⟨?_, fun _ => rfl, ?_, ?_⟩
  · intro chunks
    rw [runObserver_eq, hasFailures_three]
  · intro target force e h1 h2 h3 h4
    rw [newLiveInternal_observerFatal target force e h1 h2 h3 h4]
    refine ⟨rfl, rfl, rfl, ?_⟩
    intro hd hr hra
    cases hmf : e.rrObserver.metaIsFile <;> simp [renameRemove, hd, hr, hra, hmf]
  · intro target mustMM force rrPre rrRetry e1 e2 h1 h2 h3 h4
    have hf := newLiveInternal_observerFatal target force e1 h1 h2 h3 h4
    cases hmm : mustMM with
    | false => unfold newLive; simp
    | true =>
      cases hpre : (renameRemove target rrPre).errored with
      | true => unfold newLive; simp [hpre]
      | false =>
        rw [newLive_noRetry target true force rrPre rrRetry e1 e2 rfl hpre
          (by rintro ⟨_, _, hfat⟩; rw [hf] at hfat; simp at hfat)]
        simp

/-- C2 witness: a stream carrying all three signals (in mixed case) makes
the attempt fatal. -/
theorem installObserver_spec_witness :
    (newLiveInternal "t" false
        ⟨true, false, 0, ["SafetyError: PKGS appears to be corrupted".data],
          ⟨true, 0, true, true, false, true⟩, none, false, 0, [], false, true,
          true⟩).fatal = true :=
  (installObserver_spec.2.2.1 "t" false _ rfl rfl rfl (by decide)).2.1

theorem mem_hexMin2 (n : Nat) : ∀ c ∈ (hexMin2 n).data, isHexLower c = true := by
  intro c hc
  simp only [hexMin2, leftPad] at hc
  rw [List.mem_append] at hc
  rcases hc with h | h
  · rw [List.mem_replicate] at h
    rw [h.2]
    decide
  · exact mem_hexDigitsAux_lower 16 n c h

theorem userHomeIdentity_eq (loc : List Nat)
    (h7 : ¬((hexMin2 (Siphash 9007799254740993 2147487647 loc)).length < 7)) :
    UserHomeIdentity false (some loc) = some (sipHomeFingerprint loc) := by
  unfold UserHomeIdentity sipHomeFingerprint
  simp [h7]

/-- C9: in managed mode with a resolvable home directory (and the hex
rendering long enough for the Go slice not to panic), the user-home
identity is exactly the 7-hex-character prefix of the SipHash fingerprint
of the home path, all lowercase hex, and identities differ whenever the
fingerprints differ. -/
theorem userHome_identity_spec (loc : List Nat)
    (h7 : 7 ≤ (hexMin2 (Siphash 9007799254740993 2147487647 loc)).length) :
    UserHomeIdentity false (some loc) = some (sipHomeFingerprint loc) ∧
    (sipHomeFingerprint loc).length = 7 ∧
    (∀ c ∈ (sipHomeFingerprint loc).data, isHexLower c = true) ∧
    (∀ loc2 : List Nat, sipHomeFingerprint loc ≠ sipHomeFingerprint loc2 →
      UserHomeIdentity false (some loc) ≠ UserHomeIdentity false (some loc2)) := by
  have h7' : ¬((hexMin2 (Siphash 9007799254740993 2147487647 loc)).length < 7) := by omega
  refine ⟨userHomeIdentity_eq loc h7', ?_, ?_, ?_⟩
  · have hlen : 7 ≤ (hexMin2 (Siphash 9007799254740993 2147487647 loc)).data.length := h7
    simp only [sipHomeFingerprint, goTake, stringLength_mk, List.length_take]
    omega
  · intro c hc
    have hc' : c ∈ (hexMin2 (Siphash 9007799254740993 2147487647 loc)).data.take 7 := hc
    exact mem_hexMin2 _ c (List.take_subset _ _ hc')
  · intro loc2 hne
    rw [userHomeIdentity_eq loc h7']
    by_cases h2 : (hexMin2 (Siphash 9007799254740993 2147487647 loc2)).length < 7
    · have hnone : UserHomeIdentity false (some loc2) = none := by
        unfold UserHomeIdentity
        simp [h2]
      rw [hnone]
      simp
    · rw [userHomeIdentity_eq loc2 h2]
      simpa using hne

/-- C9 witness: a concrete home directory, with its SipHash value large
enough that the rendering has at least 7 hex digits. -/
theorem userHome_identity_spec_witness :
    UserHomeIdentity false (some ("/home/alice".data.map Char.toNat)) =
      some (sipHomeFingerprint ("/home/alice".data.map Char.toNat)) :=
  (userHome_identity_spec _ (by decide)).1

/-- C1 witness: the key for the empty canonical body is 16 characters. -/
theorem shortDigest_sha256_key_witness : (ShortDigest []).length = 16 :=
  (shortDigest_sha256_key []).2.1
